import Mathlib

/-!
Verification of the `marketdatarequest` command of the `sylr.dev/fix` CLI
(a FIX protocol client). The Go source of the command (package
`marketdatarequest`: `Validate`, `Execute`, `buildMessage`) is shallowly
embedded below. External collaborators (configuration loading, the quickfix
engine, OS signals, channels) are modelled by an explicit environment value
recording the outcome of each external call and the order of lifecycle
events, so that `Execute` becomes a pure function from that environment to
an observable trace.
-/

namespace Fix

/-- Errors of the `sylr.dev/fix/pkg/errors` package used by the command,
plus a generic constructor for errors injected by external collaborators
(configuration, engine, send). -/
inductive FixError where
  | optionsNoSymbolGiven
  | optionsNoTypeGiven
  | optionsUnknownType (t : String)
  | optionsUnknownSubscriptionType (t : String)
  | connectionTimeout
  | fixLogout
  | fixVersionNotImplemented
  | externalError (site : String)
deriving DecidableEq, Repr

/-- The `config.Session` fields read by this command. -/
structure Session where
  beginString : String
  defaultApplVerID : String
  senderCompID : String
  senderSubID : String
  targetCompID : String
  targetSubID : String
deriving DecidableEq, Repr

/-- The package-level option variables of the command, set by the CLI flags. -/
structure MDOptions where
  optionTypes : List String
  optionSymbols : List String
  optionFullSnap : Bool
  optionSubType : String
  optionMDReqID : String
deriving DecidableEq, Repr

/-- The `enum.MDUpdateType` values used by the command. -/
inductive MDUpdateType where
  | fullRefresh
  | incrementalRefresh
deriving DecidableEq, Repr

/-- The `enum.MsgType` values used by the command. -/
inductive MsgType where
  | marketDataRequest
deriving DecidableEq, Repr

/-- The lookup tables of `sylr.dev/fix/pkg/dict` used by the command, as
partial maps from upper-cased token to protocol code (a Go `map[string]T`
keyed by canonical upper-cased tokens). -/
structure DictTables where
  mdEntryTypes : String → Option String
  subscriptionRequestTypes : String → Option String

/-- Go map indexing `m[k]` yields the zero value (here the empty string)
when the key is absent. -/
def goMapIndex (tbl : String → Option String) (k : String) : String :=
  (tbl k).getD ""

/-- Go `strings.ToUpper` on the ASCII tokens this command handles:
upper-case every character. Defined over the character list so that
concrete instances reduce. -/
def goToUpper (s : String) : String :=
  String.mk (s.data.map Char.toUpper)

/-- The outbound quickfix message, restricted to the fields this command
sets: header message type and routing fields, body fields and the two
repeating groups (one entry per group instance, in insertion order). -/
structure MDMessage where
  msgType : Option MsgType
  mdReqID : Option String
  subscriptionRequestType : Option String
  marketDepth : Option Int
  mdUpdateType : Option MDUpdateType
  entryTypeGroups : List String
  symbolGroups : List String
  senderCompID : Option String
  senderSubID : Option String
  targetCompID : Option String
  targetSubID : Option String
deriving DecidableEq, Repr

/-- The constant `quickfix.BeginStringFIXT11`. -/
def BeginStringFIXT11 : String := "FIXT.1.1"

/-- Modelled from the spec: `utils.QuickFixMessagePartSetString`
(package `sylr.dev/fix/pkg/utils`, not part of the sources at hand) sets a
message-part field from a string value only when that value is non-empty;
an empty value leaves the part untouched. -/
def quickFixMessagePartSetString (part : Option String) (value : String) : Option String :=
  if value.length > 0 then some value else part

/-- Shallow embedding of `buildMessage` (source lines 281-341): dispatch on
`(session.BeginString, session.DefaultApplVerID)`; for the single supported
pair populate the body fields and the two repeating groups from the option
variables, then the sparse header routing fields from the session; any
other pair fails with `errors.FixVersionNotImplemented`. -/
def buildMessage (tables : DictTables) (opts : MDOptions) (session : Session) :
    Except FixError MDMessage :=
  let mdReqID := opts.optionMDReqID
  let subReqType := goMapIndex tables.subscriptionRequestTypes (goToUpper opts.optionSubType)
  let updateType : MDUpdateType :=
    if opts.optionFullSnap then .fullRefresh else .incrementalRefresh
  if session.beginString = BeginStringFIXT11 then
    if session.defaultApplVerID = "FIX.5.0SP2" then
      let message : MDMessage :=
        { msgType := some .marketDataRequest
          mdReqID := some mdReqID
          subscriptionRequestType := some subReqType
          marketDepth := some 0
          mdUpdateType := some updateType
          entryTypeGroups :=
            opts.optionTypes.map (fun t => goMapIndex tables.mdEntryTypes (goToUpper t))
          symbolGroups := opts.optionSymbols
          senderCompID := none
          senderSubID := none
          targetCompID := none
          targetSubID := none }
      let message := { message with
        targetCompID := quickFixMessagePartSetString message.targetCompID session.targetCompID
        targetSubID := quickFixMessagePartSetString message.targetSubID session.targetSubID
        senderCompID := quickFixMessagePartSetString message.senderCompID session.senderCompID
        senderSubID := quickFixMessagePartSetString message.senderSubID session.senderSubID }
      .ok message
    else
      .error .fixVersionNotImplemented
  else
    .error .fixVersionNotImplemented

/-- Sample dictionary tables for concrete evaluations, with the tokens the
spec scenario uses (the real tables live in `sylr.dev/fix/pkg/dict`; per
the spec they are keyed by canonical upper-cased tokens). -/
def sampleMDEntryTypes : String → Option String
  | "BID" => some "0"
  | "OFFER" => some "1"
  | "TRADE" => some "2"
  | _ => none

/-- Sample subscription-request-type table for concrete evaluations. -/
def sampleSubscriptionRequestTypes : String → Option String
  | "SNAPSHOT" => some "0"
  | "SUBSCRIBE" => some "1"
  | "UNSUBSCRIBE" => some "2"
  | _ => none

/-- Sample tables bundle. -/
def sampleTables : DictTables :=
  { mdEntryTypes := sampleMDEntryTypes
    subscriptionRequestTypes := sampleSubscriptionRequestTypes }

/-- The option values of the spec scenario: symbols `["EUR/USD"]`, entry
types `["bid","offer"]`, subscription type `snapshot`, full refresh. -/
def scenarioOpts : MDOptions :=
  { optionTypes := ["bid", "offer"]
    optionSymbols := ["EUR/USD"]
    optionFullSnap := true
    optionSubType := "snapshot"
    optionMDReqID := "b8b9c9a0-0000-4000-8000-000000000000" }

/-- The session of the spec scenario. -/
def scenarioSession : Session :=
  { beginString := "FIXT.1.1"
    defaultApplVerID := "FIX.5.0SP2"
    senderCompID := "SENDER"
    senderSubID := ""
    targetCompID := "TARGET"
    targetSubID := "" }

/-- The `for _, t := range optionTypes` loop of `Validate`: the first token
whose upper-cased form is absent from the entry-type table, if any (the Go
loop returns an error on the first such token). -/
def firstUnknownType (tbl : String → Option String) : List String → Option String
  | [] => none
  | t :: ts => if (tbl (goToUpper t)).isNone then some t else firstUnknownType tbl ts

/-- Shallow embedding of `Validate` (source lines 142-172). The outcome of
the external `utils.ReconcileBoolFlags` call is passed in as
`reconcileBoolFlags`; `freshUUID` stands for the `uuid.New().String()`
value drawn when the caller supplied no request id. On success it returns
the option set actually left in the package variables (the request id
possibly replaced by the fresh UUID). -/
def Validate (tables : DictTables) (reconcileBoolFlags : Except FixError Unit)
    (freshUUID : String) (opts : MDOptions) : Except FixError MDOptions :=
  match reconcileBoolFlags with
  | .error e => .error e
  | .ok _ =>
    if opts.optionSymbols.length = 0 then
      .error .optionsNoSymbolGiven
    else if opts.optionTypes.length = 0 then
      .error .optionsNoTypeGiven
    else
      match firstUnknownType tables.mdEntryTypes opts.optionTypes with
      | some t => .error (.optionsUnknownType t)
      | none =>
        if (tables.subscriptionRequestTypes (goToUpper opts.optionSubType)).isNone then
          .error (.optionsUnknownSubscriptionType opts.optionSubType)
        else
          .ok { opts with
                optionMDReqID :=
                  if opts.optionMDReqID.length = 0 then freshUUID
                  else opts.optionMDReqID }

/-- Option values with an empty symbol list, for concrete evaluations. -/
def c6Opts : MDOptions := { scenarioOpts with optionSymbols := [] }

/-- A fixed UUID string standing for a concrete `uuid.New().String()` draw. -/
def c7Uuid : String := "7f6b1dd0-9d9f-4f64-b9f4-7d6a0b3f2c11"

/-- Option values with no caller-supplied request id. -/
def c7Opts : MDOptions :=
  { optionTypes := ["bid"]
    optionSymbols := ["EUR/USD"]
    optionFullSnap := true
    optionSubType := "snapshot"
    optionMDReqID := "" }

/-- The option values left by `Validate` on `c7Opts`: the request id filled
with the fresh UUID. -/
def c7Opts2 : MDOptions := { c7Opts with optionMDReqID := c7Uuid }

/-- Outcome of the connection-wait select of `Execute` (source lines
237-244): either the `time.After(timeout)` branch fires, or a value
arrives on `app.Connected`, or that channel is closed without a value. -/
inductive ConnectOutcome where
  | timeout
  | connected
  | channelClosed
deriving DecidableEq, Repr

/-- One iteration input of the streaming event loop of `Execute` (source
lines 261-276): a signal on the interrupt channel, a value on
`app.FromAppChan`, or that channel closing. -/
inductive LoopEvent where
  | signal
  | appMessage
  | appChanClosed
deriving DecidableEq, Repr

/-- How the streaming loop exited. -/
inductive LoopExit where
  | bySignal
  | byChanClose
deriving DecidableEq, Repr

/-- The streaming event loop of `Execute`: consume events until a signal
or the closing of `app.FromAppChan` breaks out of the loop; `none` means
the loop never exits (it blocks on its select forever). -/
def runLoop : List LoopEvent → Option LoopExit
  | [] => none
  | .signal :: _ => some .bySignal
  | .appChanClosed :: _ => some .byChanClose
  | .appMessage :: rest => runLoop rest

/-- The initiator settings of the current context used by `Execute`
(`ctxInitiator.SocketTimeout`, a `time.Duration` in nanoseconds). -/
structure CtxInitiator where
  socketTimeout : Int
deriving DecidableEq, Repr

/-- The outcomes of the external collaborator calls made by `Execute` and
the lifecycle events delivered to it, in program order: configuration
resolution, engine initiation and start, the connection wait, the send,
and the streaming-loop events. `optionsTimeout` is the CLI/global
`options.Timeout` duration in nanoseconds. -/
structure ExecEnv where
  optionsTimeout : Int
  getCurrentContext : Except FixError Unit
  getSessions : Except FixError (List Session)
  getInitiator : Except FixError CtxInitiator
  getFIXDictionaries : Except FixError Unit
  toQuickFixInitiatorSettings : Except FixError Unit
  initiate : Except FixError Unit
  start : Except FixError Unit
  connectEvent : ConnectOutcome
  sendResult : Except FixError Unit
  loopEvents : List LoopEvent

/-- How `Execute` terminated: returning nil, returning an error, a Go
runtime index-out-of-range panic, or never returning (blocked in its
event loop). -/
inductive ExecOutcome where
  | ok
  | err (e : FixError)
  | indexOutOfRange
  | blocked
deriving DecidableEq, Repr

/-- A stop call issued by `Execute` (`app.Stop()` or `init.Stop()`). -/
inductive StopCall where
  | appStop
  | initStop
deriving DecidableEq, Repr

/-- The observable trace of one `Execute` run: its outcome, whether
`quickfix.Send` was called, the stop calls in order, and the connection
timeout used by the wait select (set once the wait is reached). -/
structure ExecTrace where
  outcome : ExecOutcome
  sendCalled : Bool
  stops : List StopCall
  timeoutUsed : Option Int
deriving DecidableEq, Repr

/-- The timeout choice of `Execute` (source lines 226-234): the CLI/global
option when non-zero, else the configured initiator socket timeout when
non-zero, else 5 seconds (5e9 nanoseconds). -/
def resolveTimeout (optionsTimeout socketTimeout : Int) : Int :=
  if optionsTimeout ≠ 0 then optionsTimeout
  else if socketTimeout ≠ 0 then socketTimeout
  else 5000000000

/-- Shallow embedding of `Execute` (source lines 174-279) as a pure
function from the environment of external-call outcomes to the observable
trace. Each failing external call returns its error immediately;
`sessions[0]` is the unguarded Go index expression, a panic when
`GetSessions` returned an empty list; the connection wait yields
`errors.ConnectionTimeout` on timeout and `errors.FixLogout` on a closed
channel; after a successful `quickfix.Send` the event loop stops the
application adapter then the initiator only on the signal path. -/
def Execute (tables : DictTables) (opts : MDOptions) (env : ExecEnv) : ExecTrace :=
  match env.getCurrentContext with
  | .error e => ⟨.err e, false, [], none⟩
  | .ok _ =>
  match env.getSessions with
  | .error e => ⟨.err e, false, [], none⟩
  | .ok sessions =>
  match env.getInitiator with
  | .error e => ⟨.err e, false, [], none⟩
  | .ok ctxInitiator =>
  match sessions.head? with
  | none => ⟨.indexOutOfRange, false, [], none⟩
  | some session =>
  match env.getFIXDictionaries with
  | .error e => ⟨.err e, false, [], none⟩
  | .ok _ =>
  match env.toQuickFixInitiatorSettings with
  | .error e => ⟨.err e, false, [], none⟩
  | .ok _ =>
  match env.initiate with
  | .error e => ⟨.err e, false, [], none⟩
  | .ok _ =>
  match env.start with
  | .error e => ⟨.err e, false, [], none⟩
  | .ok _ =>
  let timeout := resolveTimeout env.optionsTimeout ctxInitiator.socketTimeout
  match env.connectEvent with
  | .timeout => ⟨.err .connectionTimeout, false, [], some timeout⟩
  | .channelClosed => ⟨.err .fixLogout, false, [], some timeout⟩
  | .connected =>
  match buildMessage tables opts session with
  | .error e => ⟨.err e, false, [], some timeout⟩
  | .ok _ =>
  match env.sendResult with
  | .error e => ⟨.err e, true, [], some timeout⟩
  | .ok _ =>
  match runLoop env.loopEvents with
  | none => ⟨.blocked, true, [], some timeout⟩
  | some .bySignal => ⟨.ok, true, [.appStop, .initStop], some timeout⟩
  | some .byChanClose => ⟨.ok, true, [], some timeout⟩

/-- An environment in which every external call succeeds, the session
connects, the send succeeds, and the engine closes `FromAppChan` after one
inbound message. -/
def happyEnv : ExecEnv :=
  { optionsTimeout := 0
    getCurrentContext := .ok ()
    getSessions := .ok [scenarioSession]
    getInitiator := .ok { socketTimeout := 0 }
    getFIXDictionaries := .ok ()
    toQuickFixInitiatorSettings := .ok ()
    initiate := .ok ()
    start := .ok ()
    connectEvent := .connected
    sendResult := .ok ()
    loopEvents := [.appMessage, .appChanClosed] }

/-- An otherwise successful run in which the engine closes `FromAppChan`
as the first loop event. -/
def c4Env : ExecEnv := { happyEnv with loopEvents := [.appChanClosed] }

end Fix

namespace Fix

/-- A `firstUnknownType` hit is a list member whose upper-cased form misses
the table. -/
theorem firstUnknownType_eq_some {tbl : String → Option String} {ts : List String}
    {t : String} (h : firstUnknownType tbl ts = some t) :
    t ∈ ts ∧ tbl (goToUpper t) = none := by
  induction ts with
  | nil => simp [firstUnknownType] at h
  | cons x xs ih =>
    by_cases hx : (tbl (goToUpper x)).isNone
    · simp [firstUnknownType, hx] at h
      subst h
      exact ⟨List.mem_cons_self x xs, Option.isNone_iff_eq_none.mp (by simpa using hx)⟩
    · simp [firstUnknownType, hx] at h
      obtain ⟨hm, hn⟩ := ih h
      exact ⟨List.mem_cons_of_mem x hm, hn⟩

/-- When `firstUnknownType` finds nothing, every token resolves. -/
theorem firstUnknownType_eq_none {tbl : String → Option String} {ts : List String}
    (h : firstUnknownType tbl ts = none) :
    ∀ t ∈ ts, tbl (goToUpper t) ≠ none := by
  induction ts with
  | nil => simp
  | cons x xs ih =>
    by_cases hx : (tbl (goToUpper x)).isNone
    · simp [firstUnknownType, hx] at h
    · simp [firstUnknownType, hx] at h
      intro t ht
      rcases List.mem_cons.mp ht with rfl | hm
      · simpa [Option.isNone_iff_eq_none] using hx
      · exact ih h t hm

/-- Failure characterization of `Validate` used by the claim theorems. -/
theorem validate_error_iff (tables : DictTables) (freshUUID : String) (opts : MDOptions) :
    (∃ e, Validate tables (.ok ()) freshUUID opts = .error e) ↔
      (opts.optionSymbols = [] ∨ opts.optionTypes = [] ∨
       (∃ t ∈ opts.optionTypes, tables.mdEntryTypes (goToUpper t) = none) ∨
       tables.subscriptionRequestTypes (goToUpper opts.optionSubType) = none) := by
  unfold Validate
  by_cases h1 : opts.optionSymbols.length = 0
  · simp [h1, List.length_eq_zero.mp h1]
  · by_cases h2 : opts.optionTypes.length = 0
    · simp [h1, h2, List.length_eq_zero.mp h2]
    · have h1' : opts.optionSymbols ≠ [] := by
        intro he; exact h1 (by simp [he])
      have h2' : opts.optionTypes ≠ [] := by
        intro he; exact h2 (by simp [he])
      cases hft : firstUnknownType tables.mdEntryTypes opts.optionTypes with
      | some t =>
        obtain ⟨hm, hn⟩ := firstUnknownType_eq_some hft
        simp only [h1, h2, hft, if_neg]
        constructor
        · intro _
          exact Or.inr (Or.inr (Or.inl ⟨t, hm, hn⟩))
        · intro _
          exact ⟨.optionsUnknownType t, rfl⟩
      | none =>
        have hall := firstUnknownType_eq_none hft
        by_cases h4 : (tables.subscriptionRequestTypes (goToUpper opts.optionSubType)).isNone
        · simp only [h1, h2, hft, h4, if_neg, if_pos]
          constructor
          · intro _
            exact Or.inr (Or.inr (Or.inr (Option.isNone_iff_eq_none.mp h4)))
          · intro _
            exact ⟨.optionsUnknownSubscriptionType opts.optionSubType, rfl⟩
        · simp only [h1, h2, hft, h4, if_neg]
          constructor
          · rintro ⟨e, he⟩
            simp at he
          · rintro (hc | hc | ⟨t, hm, hn⟩ | hc)
            · exact absurd hc h1'
            · exact absurd hc h2'
            · exact absurd hn (hall t hm)
            · exact absurd (Option.isNone_iff_eq_none.mpr hc) h4

/-- C6: with the boolean-flag reconciliation succeeding, `Validate` fails
exactly when the symbol list is empty, the entry-type list is empty, some
entry-type token upper-cased is absent from the entry-type table, or the
upper-cased subscription-type token is absent from the
subscription-request-type table; and the outcome is invariant under any
re-casing of the tokens (lookup is case-insensitive on the token side). -/
theorem Validate_fails_exactly_when (tables : DictTables) (freshUUID : String)
    (opts : MDOptions) :
    ((∃ e, Validate tables (.ok ()) freshUUID opts = .error e) ↔
      (opts.optionSymbols = [] ∨ opts.optionTypes = [] ∨
       (∃ t ∈ opts.optionTypes, tables.mdEntryTypes (goToUpper t) = none) ∨
       tables.subscriptionRequestTypes (goToUpper opts.optionSubType) = none)) ∧
    (∀ opts' : MDOptions,
       (opts'.optionSymbols = [] ↔ opts.optionSymbols = []) →
       opts'.optionTypes.map goToUpper = opts.optionTypes.map goToUpper →
       (goToUpper opts'.optionSubType) = (goToUpper opts.optionSubType) →
       ((∃ e, Validate tables (.ok ()) freshUUID opts' = .error e) ↔
        (∃ e, Validate tables (.ok ()) freshUUID opts = .error e))) := by
  refine ⟨validate_error_iff tables freshUUID opts, ?_⟩
  intro opts' hsym hty hsub
  have hex : ∀ l : List String,
      (∃ t ∈ l, tables.mdEntryTypes (goToUpper t) = none) ↔
        ∃ u ∈ l.map goToUpper, tables.mdEntryTypes u = none := by
    intro l
    constructor
    · rintro ⟨t, ht, hn⟩
      exact ⟨goToUpper t, List.mem_map_of_mem _ ht, hn⟩
    · rintro ⟨u, hu, hn⟩
      rcases List.mem_map.mp hu with ⟨t, ht, rfl⟩
      exact ⟨t, ht, hn⟩
  have hne : (opts'.optionTypes = []) ↔ (opts.optionTypes = []) := by
    rw [← List.map_eq_nil_iff (f := goToUpper), hty, List.map_eq_nil_iff]
  rw [validate_error_iff, validate_error_iff, hsym, hne,
    hex opts'.optionTypes, hty, ← hex opts.optionTypes, hsub]

/-- Witness for C6: an empty symbol list makes `Validate` fail. -/
theorem Validate_fails_exactly_when_witness :
    ∃ e, Validate sampleTables (.ok ()) c7Uuid c6Opts = .error e :=
  ((Validate_fails_exactly_when sampleTables c7Uuid c6Opts).1).mpr (Or.inl rfl)

/-- C7: when `Validate` succeeds, the resulting request id is the fresh
UUID if the caller supplied none and the caller-supplied value verbatim
otherwise; with a non-empty UUID it is in either case non-empty, and
`buildMessage` carries it into the MDReqID field of the built message. -/
theorem Validate_mdReqID_autogeneration (tables : DictTables) (freshUUID : String)
    (opts opts2 : MDOptions) (session : Session)
    (hval : Validate tables (.ok ()) freshUUID opts = .ok opts2)
    (huuid : freshUUID.length ≠ 0)
    (hb : session.beginString = "FIXT.1.1")
    (ha : session.defaultApplVerID = "FIX.5.0SP2") :
    opts2.optionMDReqID
      = (if opts.optionMDReqID.length = 0 then freshUUID else opts.optionMDReqID) ∧
    opts2.optionMDReqID.length ≠ 0 ∧
    ∃ m, buildMessage tables opts2 session = .ok m ∧
      m.mdReqID = some opts2.optionMDReqID := by
  simp only [Validate] at hval
  split at hval
  · exact absurd hval (by simp)
  · split at hval
    · exact absurd hval (by simp)
    · split at hval
      · exact absurd hval (by simp)
      · split at hval
        · exact absurd hval (by simp)
        · simp only [Except.ok.injEq] at hval
          subst hval
          refine ⟨rfl, ?_, ?_⟩
          · by_cases hid : opts.optionMDReqID.length = 0
            · simpa [hid] using huuid
            · simp [hid]
          · unfold buildMessage BeginStringFIXT11
            simp [hb, ha]

/-- Witness for C7: on options with an empty request id, `Validate` fills
in the fresh UUID and `buildMessage` carries it into MDReqID. -/
theorem Validate_mdReqID_autogeneration_witness :
    c7Opts2.optionMDReqID
      = (if c7Opts.optionMDReqID.length = 0 then c7Uuid else c7Opts.optionMDReqID) ∧
    c7Opts2.optionMDReqID.length ≠ 0 ∧
    ∃ m, buildMessage sampleTables c7Opts2 scenarioSession = .ok m ∧
      m.mdReqID = some c7Opts2.optionMDReqID :=
  Validate_mdReqID_autogeneration sampleTables c7Uuid c7Opts c7Opts2 scenarioSession
    rfl (by decide) rfl rfl

end Fix

namespace Fix

/-- C1: for every session whose (BeginString, DefaultApplVerID) pair is not
(FIXT.1.1, FIX.5.0SP2), `buildMessage` fails with the unsupported-version
error and returns no message. -/
theorem buildMessage_unsupported_version (tables : DictTables) (opts : MDOptions)
    (session : Session)
    (h : ¬(session.beginString = "FIXT.1.1" ∧ session.defaultApplVerID = "FIX.5.0SP2")) :
    buildMessage tables opts session = .error .fixVersionNotImplemented := by
  unfold buildMessage BeginStringFIXT11
  by_cases hb : session.beginString = "FIXT.1.1"
  · by_cases ha : session.defaultApplVerID = "FIX.5.0SP2"
    · exact absurd ⟨hb, ha⟩ h
    · simp [hb, ha]
  · simp [hb]

/-- Witness for C1: a FIX.4.4 session is rejected. -/
theorem buildMessage_unsupported_version_witness :
    buildMessage sampleTables scenarioOpts
      { beginString := "FIX.4.4", defaultApplVerID := "", senderCompID := "",
        senderSubID := "", targetCompID := "", targetSubID := "" }
      = .error .fixVersionNotImplemented :=
  buildMessage_unsupported_version sampleTables scenarioOpts _ (by decide)

/-- C2: for the supported pair and non-empty option lists, `buildMessage`
succeeds with message type MarketDataRequest, one entry-type group instance
per entry-type token and one symbol group instance per symbol, in the
caller-supplied order without deduplication or sorting, and the update type
determined by the full-refresh flag. -/
theorem buildMessage_supported_pair (tables : DictTables) (opts : MDOptions)
    (session : Session)
    (hb : session.beginString = "FIXT.1.1") (ha : session.defaultApplVerID = "FIX.5.0SP2")
    (htypes : opts.optionTypes ≠ []) (hsyms : opts.optionSymbols ≠ []) :
    ∃ m, buildMessage tables opts session = .ok m ∧
      m.msgType = some .marketDataRequest ∧
      m.entryTypeGroups
        = opts.optionTypes.map (fun t => goMapIndex tables.mdEntryTypes (goToUpper t)) ∧
      m.symbolGroups = opts.optionSymbols ∧
      m.entryTypeGroups.length = opts.optionTypes.length ∧
      m.symbolGroups.length = opts.optionSymbols.length ∧
      m.mdUpdateType
        = some (if opts.optionFullSnap then .fullRefresh else .incrementalRefresh) := by
  unfold buildMessage BeginStringFIXT11
  simp [hb, ha]

/-- Witness for C2, on the spec scenario: the result is a MarketDataRequest
with a 1-element symbol group, a 2-element entry-type group and
MDUpdateType FULL_REFRESH. -/
theorem buildMessage_supported_pair_witness :
    ∃ m, buildMessage sampleTables scenarioOpts scenarioSession = .ok m ∧
      m.msgType = some .marketDataRequest ∧
      m.entryTypeGroups
        = scenarioOpts.optionTypes.map
            (fun t => goMapIndex sampleTables.mdEntryTypes (goToUpper t)) ∧
      m.symbolGroups = scenarioOpts.optionSymbols ∧
      m.entryTypeGroups.length = scenarioOpts.optionTypes.length ∧
      m.symbolGroups.length = scenarioOpts.optionSymbols.length ∧
      m.mdUpdateType
        = some (if scenarioOpts.optionFullSnap then .fullRefresh
                else .incrementalRefresh) :=
  buildMessage_supported_pair sampleTables scenarioOpts scenarioSession rfl rfl
    (by decide) (by decide)

/-- C8: for the supported pair, each header routing field is populated from
the session exactly when the corresponding session value is non-empty; an
empty session value leaves the field unset. -/
theorem buildMessage_sparse_routing_fields (tables : DictTables) (opts : MDOptions)
    (session : Session)
    (hb : session.beginString = "FIXT.1.1") (ha : session.defaultApplVerID = "FIX.5.0SP2") :
    ∃ m, buildMessage tables opts session = .ok m ∧
      m.senderCompID
        = (if session.senderCompID.length > 0 then some session.senderCompID else none) ∧
      m.senderSubID
        = (if session.senderSubID.length > 0 then some session.senderSubID else none) ∧
      m.targetCompID
        = (if session.targetCompID.length > 0 then some session.targetCompID else none) ∧
      m.targetSubID
        = (if session.targetSubID.length > 0 then some session.targetSubID else none) := by
  unfold buildMessage BeginStringFIXT11
  simp [hb, ha, quickFixMessagePartSetString]

/-- Witness for C8: on the scenario session, SenderCompID and TargetCompID
are set, the empty SenderSubID and TargetSubID are left unset. -/
theorem buildMessage_sparse_routing_fields_witness :
    ∃ m, buildMessage sampleTables scenarioOpts scenarioSession = .ok m ∧
      m.senderCompID
        = (if scenarioSession.senderCompID.length > 0
           then some scenarioSession.senderCompID else none) ∧
      m.senderSubID
        = (if scenarioSession.senderSubID.length > 0
           then some scenarioSession.senderSubID else none) ∧
      m.targetCompID
        = (if scenarioSession.targetCompID.length > 0
           then some scenarioSession.targetCompID else none) ∧
      m.targetSubID
        = (if scenarioSession.targetSubID.length > 0
           then some scenarioSession.targetSubID else none) :=
  buildMessage_sparse_routing_fields sampleTables scenarioOpts scenarioSession rfl rfl

end Fix

namespace Fix

/-- C3: in the connection wait, no Connected event within the effective
timeout makes Execute terminate with ConnectionTimeout, and a Connected
channel closed without a value makes it terminate with FixLogout (logout
before connect); in both cases quickfix.Send is never called. -/
theorem Execute_connect_wait_failures (tables : DictTables) (opts : MDOptions)
    (env : ExecEnv) (session : Session) (rest : List Session) (ctxInit : CtxInitiator)
    (hctx : env.getCurrentContext = .ok ())
    (hsess : env.getSessions = .ok (session :: rest))
    (hinit : env.getInitiator = .ok ctxInit)
    (hdict : env.getFIXDictionaries = .ok ())
    (hset : env.toQuickFixInitiatorSettings = .ok ())
    (hini : env.initiate = .ok ())
    (hstart : env.start = .ok ()) :
    (env.connectEvent = .timeout →
      (Execute tables opts env).outcome = .err .connectionTimeout ∧
      (Execute tables opts env).sendCalled = false) ∧
    (env.connectEvent = .channelClosed →
      (Execute tables opts env).outcome = .err .fixLogout ∧
      (Execute tables opts env).sendCalled = false) := by
  constructor <;> intro hc <;>
    simp [Execute, hctx, hsess, hinit, hdict, hset, hini, hstart, hc]

/-- Witness for C3: with every call succeeding but no Connected event, the
run ends in ConnectionTimeout without a send. -/
theorem Execute_connect_wait_failures_witness :
    (Execute sampleTables scenarioOpts
        { happyEnv with connectEvent := .timeout }).outcome
      = .err .connectionTimeout ∧
    (Execute sampleTables scenarioOpts
        { happyEnv with connectEvent := .timeout }).sendCalled = false :=
  (Execute_connect_wait_failures sampleTables scenarioOpts
    { happyEnv with connectEvent := .timeout } scenarioSession []
    { socketTimeout := 0 } rfl rfl rfl rfl rfl rfl rfl).1 rfl

/-- C5: the connection-wait timeout used by Execute is the CLI/global
option when non-zero, else the configured initiator socket timeout when
non-zero, else the hard-coded 5 seconds; in particular all-zero
configuration falls back to 5 seconds. -/
theorem Execute_timeout_resolution (tables : DictTables) (opts : MDOptions)
    (env : ExecEnv) (session : Session) (rest : List Session) (ctxInit : CtxInitiator)
    (hctx : env.getCurrentContext = .ok ())
    (hsess : env.getSessions = .ok (session :: rest))
    (hinit : env.getInitiator = .ok ctxInit)
    (hdict : env.getFIXDictionaries = .ok ())
    (hset : env.toQuickFixInitiatorSettings = .ok ())
    (hini : env.initiate = .ok ())
    (hstart : env.start = .ok ()) :
    (Execute tables opts env).timeoutUsed
      = some (resolveTimeout env.optionsTimeout ctxInit.socketTimeout) ∧
    (env.optionsTimeout ≠ 0 →
      resolveTimeout env.optionsTimeout ctxInit.socketTimeout = env.optionsTimeout) ∧
    (env.optionsTimeout = 0 → ctxInit.socketTimeout ≠ 0 →
      resolveTimeout env.optionsTimeout ctxInit.socketTimeout
        = ctxInit.socketTimeout) ∧
    (env.optionsTimeout = 0 → ctxInit.socketTimeout = 0 →
      resolveTimeout env.optionsTimeout ctxInit.socketTimeout = 5000000000) := by
  refine ⟨?_, ?_, ?_, ?_⟩
  · cases hc : env.connectEvent with
    | timeout => simp [Execute, hctx, hsess, hinit, hdict, hset, hini, hstart, hc]
    | channelClosed => simp [Execute, hctx, hsess, hinit, hdict, hset, hini, hstart, hc]
    | connected =>
      cases hbm : buildMessage tables opts session with
      | error e => simp [Execute, hctx, hsess, hinit, hdict, hset, hini, hstart, hc, hbm]
      | ok m =>
        cases hse : env.sendResult with
        | error e =>
          simp [Execute, hctx, hsess, hinit, hdict, hset, hini, hstart, hc, hbm, hse]
        | ok u =>
          cases hrl : runLoop env.loopEvents with
          | none =>
            simp [Execute, hctx, hsess, hinit, hdict, hset, hini, hstart, hc, hbm, hse, hrl]
          | some ex =>
            cases ex <;>
              simp [Execute, hctx, hsess, hinit, hdict, hset, hini, hstart, hc, hbm, hse, hrl]
  · intro h
    simp [resolveTimeout, h]
  · intro h1 h2
    simp [resolveTimeout, h1, h2]
  · intro h1 h2
    simp [resolveTimeout, h1, h2]

/-- Witness for C5: with a timeout of 0 at every level, the run uses the
5-second default. -/
theorem Execute_timeout_resolution_witness :
    (Execute sampleTables scenarioOpts happyEnv).timeoutUsed
      = some (resolveTimeout happyEnv.optionsTimeout
          ({ socketTimeout := 0 } : CtxInitiator).socketTimeout) ∧
    resolveTimeout happyEnv.optionsTimeout
        ({ socketTimeout := 0 } : CtxInitiator).socketTimeout = 5000000000 :=
  ⟨(Execute_timeout_resolution sampleTables scenarioOpts happyEnv scenarioSession []
      { socketTimeout := 0 } rfl rfl rfl rfl rfl rfl rfl).1,
   (Execute_timeout_resolution sampleTables scenarioOpts happyEnv scenarioSession []
      { socketTimeout := 0 } rfl rfl rfl rfl rfl rfl rfl).2.2.2 rfl rfl⟩

/-- C4 counterexample: in an otherwise successful run whose streaming loop
ends because FromAppChan closes, Execute terminates (returning nil) with
no stop call at all, so the loop ending does not always stop the
application adapter and the engine initiator. -/
theorem Execute_stops_counterexample :
    runLoop c4Env.loopEvents = some .byChanClose ∧
    (Execute sampleTables scenarioOpts c4Env).outcome = .ok ∧
    (Execute sampleTables scenarioOpts c4Env).stops = [] :=
  ⟨rfl, rfl, rfl⟩

/-- C4 amended: when the streaming loop ends by a termination signal,
Execute stops the application adapter and then the engine initiator before
terminating; when the loop ends because FromAppChan closes, Execute
terminates without issuing any stop call. -/
theorem Execute_stop_sequence (tables : DictTables) (opts : MDOptions)
    (env : ExecEnv) (session : Session) (rest : List Session) (ctxInit : CtxInitiator)
    (hctx : env.getCurrentContext = .ok ())
    (hsess : env.getSessions = .ok (session :: rest))
    (hinit : env.getInitiator = .ok ctxInit)
    (hdict : env.getFIXDictionaries = .ok ())
    (hset : env.toQuickFixInitiatorSettings = .ok ())
    (hini : env.initiate = .ok ())
    (hstart : env.start = .ok ())
    (hconn : env.connectEvent = .connected)
    (hmsg : ∃ m, buildMessage tables opts session = .ok m)
    (hsend : env.sendResult = .ok ()) :
    (runLoop env.loopEvents = some .bySignal →
      (Execute tables opts env).stops = [.appStop, .initStop] ∧
      (Execute tables opts env).outcome = .ok) ∧
    (runLoop env.loopEvents = some .byChanClose →
      (Execute tables opts env).stops = [] ∧
      (Execute tables opts env).outcome = .ok) := by
  obtain ⟨m, hm⟩ := hmsg
  constructor <;> intro hrl <;>
    simp [Execute, hctx, hsess, hinit, hdict, hset, hini, hstart, hconn, hm, hsend, hrl]

/-- Witness for C4 (amended): a signal as first loop event yields the stop
sequence app adapter then initiator and a nil return. -/
theorem Execute_stop_sequence_witness :
    (Execute sampleTables scenarioOpts
        { happyEnv with loopEvents := [.signal] }).stops = [.appStop, .initStop] ∧
    (Execute sampleTables scenarioOpts
        { happyEnv with loopEvents := [.signal] }).outcome = .ok :=
  (Execute_stop_sequence sampleTables scenarioOpts
    { happyEnv with loopEvents := [.signal] } scenarioSession []
    { socketTimeout := 0 } rfl rfl rfl rfl rfl rfl rfl rfl ⟨_, rfl⟩ rfl).1 rfl

end Fix

namespace Fix

/-- C9: an interrupt or terminate signal while streaming makes Execute stop
the engine and return nil; every failure before the Sending phase (context,
sessions, initiator, dictionaries, settings, initiation, start, connection
wait, or message building) makes Execute return that error with
quickfix.Send never called. -/
theorem Execute_failure_and_signal_semantics (tables : DictTables) (opts : MDOptions)
    (env : ExecEnv) (sl : List Session) (session : Session) (rest : List Session)
    (ctxInit : CtxInitiator) :
    (env.getCurrentContext = .ok () → env.getSessions = .ok (session :: rest) →
     env.getInitiator = .ok ctxInit → env.getFIXDictionaries = .ok () →
     env.toQuickFixInitiatorSettings = .ok () → env.initiate = .ok () →
     env.start = .ok () → env.connectEvent = .connected →
     (∃ m, buildMessage tables opts session = .ok m) → env.sendResult = .ok () →
     runLoop env.loopEvents = some .bySignal →
       (Execute tables opts env).outcome = .ok ∧
       (Execute tables opts env).stops = [.appStop, .initStop]) ∧
    (∀ e, env.getCurrentContext = .error e →
       (Execute tables opts env).outcome = .err e ∧
       (Execute tables opts env).sendCalled = false) ∧
    (env.getCurrentContext = .ok () → ∀ e, env.getSessions = .error e →
       (Execute tables opts env).outcome = .err e ∧
       (Execute tables opts env).sendCalled = false) ∧
    (env.getCurrentContext = .ok () → env.getSessions = .ok sl →
     ∀ e, env.getInitiator = .error e →
       (Execute tables opts env).outcome = .err e ∧
       (Execute tables opts env).sendCalled = false) ∧
    (env.getCurrentContext = .ok () → env.getSessions = .ok (session :: rest) →
     env.getInitiator = .ok ctxInit → ∀ e, env.getFIXDictionaries = .error e →
       (Execute tables opts env).outcome = .err e ∧
       (Execute tables opts env).sendCalled = false) ∧
    (env.getCurrentContext = .ok () → env.getSessions = .ok (session :: rest) →
     env.getInitiator = .ok ctxInit → env.getFIXDictionaries = .ok () →
     ∀ e, env.toQuickFixInitiatorSettings = .error e →
       (Execute tables opts env).outcome = .err e ∧
       (Execute tables opts env).sendCalled = false) ∧
    (env.getCurrentContext = .ok () → env.getSessions = .ok (session :: rest) →
     env.getInitiator = .ok ctxInit → env.getFIXDictionaries = .ok () →
     env.toQuickFixInitiatorSettings = .ok () → ∀ e, env.initiate = .error e →
       (Execute tables opts env).outcome = .err e ∧
       (Execute tables opts env).sendCalled = false) ∧
    (env.getCurrentContext = .ok () → env.getSessions = .ok (session :: rest) →
     env.getInitiator = .ok ctxInit → env.getFIXDictionaries = .ok () →
     env.toQuickFixInitiatorSettings = .ok () → env.initiate = .ok () →
     ∀ e, env.start = .error e →
       (Execute tables opts env).outcome = .err e ∧
       (Execute tables opts env).sendCalled = false) ∧
    (env.getCurrentContext = .ok () → env.getSessions = .ok (session :: rest) →
     env.getInitiator = .ok ctxInit → env.getFIXDictionaries = .ok () →
     env.toQuickFixInitiatorSettings = .ok () → env.initiate = .ok () →
     env.start = .ok () → env.connectEvent = .timeout →
       (Execute tables opts env).outcome = .err .connectionTimeout ∧
       (Execute tables opts env).sendCalled = false) ∧
    (env.getCurrentContext = .ok () → env.getSessions = .ok (session :: rest) →
     env.getInitiator = .ok ctxInit → env.getFIXDictionaries = .ok () →
     env.toQuickFixInitiatorSettings = .ok () → env.initiate = .ok () →
     env.start = .ok () → env.connectEvent = .channelClosed →
       (Execute tables opts env).outcome = .err .fixLogout ∧
       (Execute tables opts env).sendCalled = false) ∧
    (env.getCurrentContext = .ok () → env.getSessions = .ok (session :: rest) →
     env.getInitiator = .ok ctxInit → env.getFIXDictionaries = .ok () →
     env.toQuickFixInitiatorSettings = .ok () → env.initiate = .ok () →
     env.start = .ok () → env.connectEvent = .connected →
     ∀ e, buildMessage tables opts session = .error e →
       (Execute tables opts env).outcome = .err e ∧
       (Execute tables opts env).sendCalled = false) := by
  refine ⟨?_, ?_, ?_, ?_, ?_, ?_, ?_, ?_, ?_, ?_, ?_⟩
  · intro h1 h2 h3 h4 h5 h6 h7 h8 hm h9 hrl
    obtain ⟨m, hbm⟩ := hm
    simp [Execute, h1, h2, h3, h4, h5, h6, h7, h8, hbm, h9, hrl]
  · intro e h1
    simp [Execute, h1]
  · intro h1 e h2
    simp [Execute, h1, h2]
  · intro h1 h2 e h3
    simp [Execute, h1, h2, h3]
  · intro h1 h2 h3 e h4
    simp [Execute, h1, h2, h3, h4]
  · intro h1 h2 h3 h4 e h5
    simp [Execute, h1, h2, h3, h4, h5]
  · intro h1 h2 h3 h4 h5 e h6
    simp [Execute, h1, h2, h3, h4, h5, h6]
  · intro h1 h2 h3 h4 h5 h6 e h7
    simp [Execute, h1, h2, h3, h4, h5, h6, h7]
  · intro h1 h2 h3 h4 h5 h6 h7 h8
    simp [Execute, h1, h2, h3, h4, h5, h6, h7, h8]
  · intro h1 h2 h3 h4 h5 h6 h7 h8
    simp [Execute, h1, h2, h3, h4, h5, h6, h7, h8]
  · intro h1 h2 h3 h4 h5 h6 h7 h8 e hbm
    simp [Execute, h1, h2, h3, h4, h5, h6, h7, h8, hbm]

/-- Witness for C9: a failing configuration-context resolution is returned
as is, with no send attempted. -/
theorem Execute_failure_and_signal_semantics_witness :
    (Execute sampleTables scenarioOpts
        { happyEnv with getCurrentContext := .error (.externalError "config") }).outcome
      = .err (.externalError "config") ∧
    (Execute sampleTables scenarioOpts
        { happyEnv with getCurrentContext := .error (.externalError "config") }).sendCalled
      = false :=
  (Execute_failure_and_signal_semantics sampleTables scenarioOpts
    { happyEnv with getCurrentContext := .error (.externalError "config") }
    [] scenarioSession [] { socketTimeout := 0 }).2.1 (.externalError "config") rfl

/-- C10: Execute reads the first returned session unguarded, so an empty
session list reaches the Go index-out-of-range panic; with at least one
session the panic cannot occur, and the whole observable trace is
independent of every session beyond the first. -/
theorem Execute_first_session_only (tables : DictTables) (opts : MDOptions)
    (env : ExecEnv) (session : Session) (rest rest2 : List Session) :
    (env.getCurrentContext = .ok () → env.getSessions = .ok [] →
      (∃ ci, env.getInitiator = .ok ci) →
      (Execute tables opts env).outcome = .indexOutOfRange) ∧
    (Execute tables opts { env with getSessions := .ok (session :: rest) }
      = Execute tables opts { env with getSessions := .ok (session :: rest2) }) ∧
    (env.getSessions = .ok (session :: rest) →
      (Execute tables opts env).outcome ≠ .indexOutOfRange) := by
  refine ⟨?_, ?_, ?_⟩
  · rintro h1 h2 ⟨ci, h3⟩
    simp [Execute, h1, h2, h3]
  · rfl
  · intro hsess
    obtain ⟨t0, c, s, i, d, st, ini, sta, ce, se, le⟩ := env
    simp only at hsess
    subst hsess
    cases c with
    | error e => simp [Execute]
    | ok u =>
      cases i with
      | error e => simp [Execute]
      | ok ci =>
        cases d with
        | error e => simp [Execute]
        | ok u2 =>
          cases st with
          | error e => simp [Execute]
          | ok u3 =>
            cases ini with
            | error e => simp [Execute]
            | ok u4 =>
              cases sta with
              | error e => simp [Execute]
              | ok u5 =>
                cases ce with
                | timeout => simp [Execute]
                | channelClosed => simp [Execute]
                | connected =>
                  cases hbm : buildMessage tables opts session with
                  | error e => simp [Execute, hbm]
                  | ok m =>
                    cases se with
                    | error e => simp [Execute, hbm]
                    | ok u6 =>
                      cases hrl : runLoop le with
                      | none => simp [Execute, hbm, hrl]
                      | some ex => cases ex <;> simp [Execute, hbm, hrl]

/-- Witness for C10: all external calls succeeding but an empty session
list reaches the index-out-of-range panic. -/
theorem Execute_first_session_only_witness :
    (Execute sampleTables scenarioOpts
        { happyEnv with getSessions := .ok [] }).outcome = .indexOutOfRange :=
  (Execute_first_session_only sampleTables scenarioOpts
    { happyEnv with getSessions := .ok [] } scenarioSession [] []).1 rfl rfl
    ⟨{ socketTimeout := 0 }, rfl⟩

end Fix
